import Mathlib

/-!
Verification of the AI-Chatbot repository's conversation, generation and
persistence layers, shallowly embedded in Lean 4.

The embedding follows the Python source:
  * `src/core/conversation.py`   — in-memory message log (`ConversationManager`)
  * `src/core/generator.py`      — streaming orchestrator (`ResponseGenerator`)
  * `src/storage/database.py`    — SQLite wrapper (each `execute` commits)
  * `src/storage/session_manager.py` — session/message CRUD and export
  * `src/ui/chat_window.py`, `src/ui/components.py` — desktop controller
  * `app_gradio_persistent.py`   — persistent web controller
-/

/-- One chat message as stored in `ConversationManager.messages`
(a Python dict with keys `role` and `content`). -/
structure Msg where
  role : String
  content : String
deriving Repr, DecidableEq

/-- State of `ConversationManager` (src/core/conversation.py):
`messages`, `is_interrupted`, `partial_response`. -/
structure ConversationManager where
  messages : List Msg
  is_interrupted : Bool
  partial_response : String
deriving Repr, DecidableEq

namespace ConversationManager

/-- `ConversationManager.__init__`. -/
def init : ConversationManager := ⟨[], false, ""⟩

/-- `add_user_message`: appends `{"role": "user", "content": content}`. -/
def add_user_message (cm : ConversationManager) (content : String) : ConversationManager :=
  { cm with messages := cm.messages ++ [⟨"user", content⟩] }

/-- `add_assistant_message`: appends `{"role": "assistant", "content": content}`. -/
def add_assistant_message (cm : ConversationManager) (content : String) : ConversationManager :=
  { cm with messages := cm.messages ++ [⟨"assistant", content⟩] }

/-- `get_history`: returns the message list. -/
def get_history (cm : ConversationManager) : List Msg := cm.messages

/-- `clear_history`: resets messages, flag and buffer. -/
def clear_history (_cm : ConversationManager) : ConversationManager := ⟨[], false, ""⟩

/-- `mark_interrupted(partial_content)`: sets the flag and the buffer. -/
def mark_interrupted (cm : ConversationManager) (partial_content : String) : ConversationManager :=
  { cm with is_interrupted := true, partial_response := partial_content }

/-- The synthetic continuation prompt appended by `continue_conversation`. -/
def continuationPrompt : String := "Please continue from where you left off."

/-- `continue_conversation`: if interrupted, appends the continuation prompt
as a user message and clears the flag; otherwise does nothing. -/
def continue_conversation (cm : ConversationManager) : ConversationManager :=
  if cm.is_interrupted then
    { cm.add_user_message continuationPrompt with is_interrupted := false }
  else
    cm

/-- `get_message_count`. -/
def get_message_count (cm : ConversationManager) : Nat := cm.messages.length

end ConversationManager

/-- One append call on the message log: either `add_user_message` or
`add_assistant_message`. -/
inductive AppendCall
  | user (content : String)
  | assistant (content : String)
deriving Repr, DecidableEq

/-- Run one append call on a `ConversationManager`. -/
def applyAppend (cm : ConversationManager) : AppendCall → ConversationManager
  | .user c => cm.add_user_message c
  | .assistant c => cm.add_assistant_message c

/-- The message an append call produces. -/
def AppendCall.toMsg : AppendCall → Msg
  | .user c => ⟨"user", c⟩
  | .assistant c => ⟨"assistant", c⟩

/-- Run a sequence of append calls. -/
def runAppends (cm : ConversationManager) (calls : List AppendCall) : ConversationManager :=
  calls.foldl applyAppend cm

lemma applyAppend_messages (cm : ConversationManager) (c : AppendCall) :
    (applyAppend cm c).messages = cm.messages ++ [c.toMsg] := by
  cases c <;> rfl

lemma runAppends_messages (calls : List AppendCall) (cm : ConversationManager) :
    (runAppends cm calls).messages = cm.messages ++ calls.map AppendCall.toMsg := by
  induction calls generalizing cm with
  | nil => simp [runAppends]
  | cons c rest ih =>
      simp only [runAppends, List.foldl_cons, List.map_cons]
      rw [show List.foldl applyAppend (applyAppend cm c) rest = runAppends (applyAppend cm c) rest from rfl,
        ih, applyAppend_messages]
      simp

/-- C5: For every finite sequence of append calls (`add_user_message` /
`add_assistant_message`) on a fresh message log with no intervening clear,
`get_history` returns exactly those messages, with their given roles and
contents, in exactly the order the calls were made. -/
theorem get_history_returns_appends_in_order (calls : List AppendCall) :
    (runAppends ConversationManager.init calls).get_history = calls.map AppendCall.toMsg := by
  rw [ConversationManager.get_history, runAppends_messages]
  rfl

/-- C9: When the interrupted flag is false, `continue_conversation` is a
complete no-op: messages, flag and `partial_response` are all unchanged
(the synthetic continuation turn is appended only from an interrupted state). -/
theorem continue_conversation_noop_when_not_interrupted (cm : ConversationManager)
    (h : cm.is_interrupted = false) :
    cm.continue_conversation = cm := by
  unfold ConversationManager.continue_conversation
  rw [h]
  simp

/-- Witness for C9 at a concrete non-interrupted state. -/
theorem continue_conversation_noop_witness :
    (⟨[⟨"user", "hi"⟩], false, "buf"⟩ : ConversationManager).is_interrupted = false ∧
      (⟨[⟨"user", "hi"⟩], false, "buf"⟩ : ConversationManager).continue_conversation =
        ⟨[⟨"user", "hi"⟩], false, "buf"⟩ :=
  ⟨rfl, continue_conversation_noop_when_not_interrupted _ rfl⟩

/-- C10: `mark_interrupted` leaves the message sequence unchanged; it only
sets the interrupted flag to true and the `partial_response` buffer to the
given content, appending no message. -/
theorem mark_interrupted_frame (cm : ConversationManager) (s : String) :
    (cm.mark_interrupted s).messages = cm.messages ∧
      (cm.mark_interrupted s).is_interrupted = true ∧
      (cm.mark_interrupted s).partial_response = s :=
  ⟨rfl, rfl, rfl⟩

/-!
## Streaming orchestrator (`ResponseGenerator.generate_streaming`,
src/core/generator.py)

The Python loop `for token in streamer` draws items from the streamer
thread; drawing the next item may raise (modelled by `StreamItem.err`).
Exceptions raised while preparing the inputs before the loop are modelled
by the `prep : Except String Unit` argument.  The cooperative stop flag
set by `ResponseGenerator.stop` is modelled by `stopAfter : Option Nat`:
`some n` means the flag is observed set once `n` tokens have been
delivered to `token_callback` (`none`: `stop` is never called).
The observable behaviour of one `generate_streaming` call is its ordered
list of callback invocations.
-/

/-- One item drawn from the token streamer: a produced token, or an
exception raised while drawing the next item. -/
inductive StreamItem
  | token (s : String)
  | err (msg : String)
deriving Repr, DecidableEq

/-- One callback invocation made by `generate_streaming`. -/
inductive CallbackEvent
  | onToken (s : String)
  | onComplete (text : String) (cancelled : Bool)
deriving Repr, DecidableEq

/-- Value of `self.stop_flag` once `delivered` tokens have been forwarded. -/
def flagSet (stopAfter : Option Nat) (delivered : Nat) : Bool :=
  match stopAfter with
  | none => false
  | some n => decide (n ≤ delivered)

/-- The `for token in streamer` loop of `generate_streaming`: draw the next
item (which may raise), check `stop_flag` and break if set, otherwise extend
`full_response` and invoke `token_callback`.  Returns the `onToken` events
in order together with either the final `(full_response, stop_flag)` or the
message of a raised exception. -/
def streamLoop (stopAfter : Option Nat) :
    List StreamItem → Nat → String → List CallbackEvent × Except String (String × Bool)
  | [], delivered, acc => ([], Except.ok (acc, flagSet stopAfter delivered))
  | item :: rest, delivered, acc =>
    match item with
    | .err m => ([], Except.error m)
    | .token t =>
      if flagSet stopAfter delivered then
        ([], Except.ok (acc, true))
      else
        let r := streamLoop stopAfter rest (delivered + 1) (acc ++ t)
        (CallbackEvent.onToken t :: r.1, r.2)

/-- The marker checked by `generate_streaming`'s extraction step. -/
def INSTmarker : List Char := "[/INST]".data

/-- Python `pat in s` on character lists. -/
def hasSubstr (pat : List Char) : List Char → Bool
  | [] => pat.isEmpty
  | c :: rest => pat.isPrefixOf (c :: rest) || hasSubstr pat rest

/-- The characters strictly before the first occurrence of `pat`
(`none` when `pat` does not occur). -/
def beforeFirst (pat : List Char) : List Char → Option (List Char)
  | [] => if pat.isEmpty then some [] else none
  | c :: rest =>
      if pat.isPrefixOf (c :: rest) then some []
      else (beforeFirst pat rest).map (fun l => c :: l)

/-- Python `s.split(pat)[-1]`: the suffix after the last occurrence of
`pat`, or all of `s` when `pat` does not occur.  Computed from the right;
this coincides with Python's left-to-right non-overlapping split for the
marker `"[/INST]"`, which cannot overlap itself. -/
def lastSplitField (pat : List Char) (s : List Char) : List Char :=
  match beforeFirst pat.reverse s.reverse with
  | some pre => pre.reverse
  | none => s

/-- Python `s.strip()`: drop whitespace from both ends. -/
def pyStrip (s : List Char) : List Char :=
  ((s.dropWhile Char.isWhitespace).reverse.dropWhile Char.isWhitespace).reverse

/-- The response-extraction step of `generate_streaming`: if `"[/INST]"`
occurs in `full_response`, take the text after its last occurrence and
strip it; otherwise strip the accumulator. -/
def extract_assistant (full : String) : String :=
  if hasSubstr INSTmarker full.data then
    ⟨pyStrip (lastSplitField INSTmarker full.data)⟩
  else
    ⟨pyStrip full.data⟩

/-- `ResponseGenerator.generate_streaming` as the callback trace of one
call: on a preparation exception or an exception raised by the loop, the
`except` branch invokes `complete_callback("Error: " + str(e), True)`;
otherwise the extracted response and the stop flag are passed to
`complete_callback`. -/
def generate_streaming (prep : Except String Unit) (stream : List StreamItem)
    (stopAfter : Option Nat) : List CallbackEvent :=
  match prep with
  | .error e => [CallbackEvent.onComplete ("Error: " ++ e) true]
  | .ok _ =>
    match streamLoop stopAfter stream 0 "" with
    | (evs, .ok (full, flag)) =>
        evs ++ [CallbackEvent.onComplete (extract_assistant full) flag]
    | (evs, .error m) =>
        evs ++ [CallbackEvent.onComplete ("Error: " ++ m) true]

/-- The exception message of a run, when one is raised while preparing or
consuming the stream. -/
def raisedMsg (prep : Except String Unit) (stream : List StreamItem)
    (stopAfter : Option Nat) : Option String :=
  match prep with
  | .error e => some e
  | .ok _ =>
    match (streamLoop stopAfter stream 0 "").2 with
    | .error m => some m
    | .ok _ => none

/-- Number of `onComplete` events in a callback trace. -/
def countComplete (evs : List CallbackEvent) : Nat :=
  evs.countP (fun e => match e with | .onComplete _ _ => true | _ => false)

lemma streamLoop_no_complete (stopAfter : Option Nat) (items : List StreamItem)
    (delivered : Nat) (acc : String) :
    countComplete (streamLoop stopAfter items delivered acc).1 = 0 := by
  induction items generalizing delivered acc with
  | nil => rfl
  | cons item rest ih =>
      cases item with
      | err m => rfl
      | token t =>
          by_cases h : flagSet stopAfter delivered = true
          · simp [streamLoop, h, countComplete]
          · simp only [Bool.not_eq_true] at h
            simp [streamLoop, h, countComplete] at ih ⊢
            exact ih _ _

lemma countComplete_append_complete (evs : List CallbackEvent) (t : String) (c : Bool) :
    countComplete (evs ++ [CallbackEvent.onComplete t c]) = countComplete evs + 1 := by
  simp [countComplete, List.countP_append, List.countP_cons]

/-- C4: every `generate_streaming` call invokes `onComplete` exactly once,
as the final callback; and whenever an exception is raised while preparing
or consuming the stream, that single `onComplete` reports
`"Error: " ++ message` with `cancelled = true` instead of propagating. -/
theorem generate_streaming_terminal_once (prep : Except String Unit)
    (stream : List StreamItem) (stopAfter : Option Nat) :
    countComplete (generate_streaming prep stream stopAfter) = 1 ∧
      (∃ text cancelled, (generate_streaming prep stream stopAfter).getLast? =
        some (CallbackEvent.onComplete text cancelled)) ∧
      (∀ m, raisedMsg prep stream stopAfter = some m →
        (generate_streaming prep stream stopAfter).getLast? =
          some (CallbackEvent.onComplete ("Error: " ++ m) true)) := by
  cases prep with
  | error e =>
      refine ⟨rfl, ⟨"Error: " ++ e, true, rfl⟩, ?_⟩
      intro m hm
      simp [raisedMsg] at hm
      simp [generate_streaming, hm]
  | ok u =>
      have hno := streamLoop_no_complete stopAfter stream 0 ""
      rcases hr : streamLoop stopAfter stream 0 "" with ⟨evs, out⟩
      rw [hr] at hno
      cases out with
      | ok p =>
          refine ⟨?_, ⟨extract_assistant p.1, p.2, ?_⟩, ?_⟩
          · simp only [generate_streaming, hr]
            rw [countComplete_append_complete, hno]
          · simp [generate_streaming, hr]
          · intro m hm
            simp [raisedMsg, hr] at hm
      | error m0 =>
          refine ⟨?_, ⟨"Error: " ++ m0, true, ?_⟩, ?_⟩
          · simp only [generate_streaming, hr]
            rw [countComplete_append_complete, hno]
          · simp [generate_streaming, hr]
          · intro m hm
            simp [raisedMsg, hr] at hm
            subst hm
            simp [generate_streaming, hr]

/-- Witness for C4 at a concrete erroring run. -/
theorem generate_streaming_terminal_once_witness :
    countComplete (generate_streaming (Except.ok ())
        [StreamItem.token "a", StreamItem.err "boom"] none) = 1 ∧
      (∃ text cancelled,
        (generate_streaming (Except.ok ()) [StreamItem.token "a", StreamItem.err "boom"]
            none).getLast? = some (CallbackEvent.onComplete text cancelled)) ∧
      (generate_streaming (Except.ok ()) [StreamItem.token "a", StreamItem.err "boom"]
          none).getLast? = some (CallbackEvent.onComplete ("Error: " ++ "boom") true) := by
  obtain ⟨h1, h2, h3⟩ := generate_streaming_terminal_once (Except.ok ())
    [StreamItem.token "a", StreamItem.err "boom"] none
  exact ⟨h1, h2, h3 "boom" (by decide)⟩

lemma String.join_cons (t : String) (l : List String) :
    String.join (t :: l) = t ++ String.join l := by
  apply String.ext
  simp

lemma streamLoop_tokens_cancelled (tokens : List String) (d N : Nat) (acc : String)
    (h : N ≤ d + tokens.length) :
    streamLoop (some N) (tokens.map StreamItem.token) d acc =
      ((tokens.take (N - d)).map CallbackEvent.onToken,
        Except.ok (acc ++ String.join (tokens.take (N - d)), true)) := by
  induction tokens generalizing d acc with
  | nil =>
      simp only [List.length_nil, Nat.add_zero] at h
      simp [streamLoop, flagSet, Nat.le_of_eq, h, String.join]
  | cons t rest ih =>
      by_cases hd : N ≤ d
      · have h0 : N - d = 0 := Nat.sub_eq_zero_of_le hd
        simp [streamLoop, flagSet, hd, h0, String.join]
      · have hd' : ¬ (decide (N ≤ d) = true) := by simpa using hd
        have hrec := ih (d + 1) (acc ++ t) (by
          simp only [List.length_cons] at h
          omega)
        have htake : N - d = (N - (d + 1)) + 1 := by omega
        simp only [List.map_cons, streamLoop, flagSet, if_neg hd', hrec, htake,
          List.take_succ_cons, String.join_cons, String.append_assoc]

/-- C3 counterexample: cancelling after one delivered increment `"Once "`
makes the orchestrator report `onComplete "Once" true` — the stripped
extraction of the accumulator — not the raw concatenation `"Once "` of the
delivered increments. -/
theorem generate_streaming_cancel_ce :
    generate_streaming (Except.ok ())
        [StreamItem.token "Once ", StreamItem.token "upon"] (some 1) =
      [CallbackEvent.onToken "Once ", CallbackEvent.onComplete "Once" true] ∧
      ("Once" : String) ≠ "Once " := by
  constructor
  · decide
  · decide

/-- C3 (amended): for a run over a token stream cancelled after exactly `N`
delivered increments, the orchestrator emits exactly the first `N` tokens to
`onToken` (none after the flag is observed) and then a single
`onComplete` whose first argument is the extraction
(`[/INST]`-split + whitespace strip) of the concatenation of those first `N`
increments, and whose second argument is `true`. -/
theorem generate_streaming_cancelled (tokens : List String) (N : Nat)
    (h : N ≤ tokens.length) :
    generate_streaming (Except.ok ()) (tokens.map StreamItem.token) (some N) =
      (tokens.take N).map CallbackEvent.onToken ++
        [CallbackEvent.onComplete (extract_assistant (String.join (tokens.take N))) true] := by
  have hl := streamLoop_tokens_cancelled tokens 0 N "" (by simpa using h)
  simp only [Nat.sub_zero] at hl
  simp [generate_streaming, hl]

/-- Witness for C3 (amended) at a concrete cancelled run. -/
theorem generate_streaming_cancelled_witness :
    (1 : Nat) ≤ (["Hi ", "there"] : List String).length ∧
      generate_streaming (Except.ok ())
          ((["Hi ", "there"] : List String).map StreamItem.token) (some 1) =
        ((["Hi ", "there"] : List String).take 1).map CallbackEvent.onToken ++
          [CallbackEvent.onComplete
            (extract_assistant (String.join ((["Hi ", "there"] : List String).take 1))) true] :=
  ⟨by decide, generate_streaming_cancelled ["Hi ", "there"] 1 (by decide)⟩

/-!
## Session store (`src/storage/database.py`, `src/storage/session_manager.py`)

`Database.execute` runs one SQL statement and immediately commits
(`self.connection.commit()` after every statement), so every statement
boundary is an observable committed state.  `CURRENT_TIMESTAMP` is
evaluated per statement; statement execution times are passed as explicit
`Nat` parameters.  The connection never executes
`PRAGMA foreign_keys = ON`, and Python's sqlite3 leaves foreign-key
enforcement off by default, so the schema's `ON DELETE CASCADE` clause on
`messages.session_id` is not enforced: `DELETE FROM sessions` removes only
session rows.
-/

/-- One row of the `sessions` table. -/
structure SessionRow where
  id : Nat
  title : String
  created_at : Nat
  updated_at : Nat
  metadata : String
deriving Repr, DecidableEq

/-- One row of the `messages` table. -/
structure MessageRow where
  id : Nat
  session_id : Nat
  role : String
  content : String
  timestamp : Nat
  metadata : String
deriving Repr, DecidableEq

/-- Committed state of the SQLite store.  Rows are listed in rowid
(insertion) order; the `next_*` counters model `AUTOINCREMENT`. -/
structure DBState where
  sessions : List SessionRow
  messages : List MessageRow
  next_session_id : Nat
  next_message_id : Nat
deriving Repr, DecidableEq

/-- The `INSERT INTO messages ...` statement of `add_message`, committed;
`t` is the statement's `CURRENT_TIMESTAMP`.  Returns the new state and
`cursor.lastrowid`. -/
def insertMessageStmt (db : DBState) (sid : Nat) (role content mdata : String)
    (t : Nat) : DBState × Nat :=
  let mid := db.next_message_id
  ({ db with
      messages := db.messages ++ [⟨mid, sid, role, content, t, mdata⟩],
      next_message_id := mid + 1 },
    mid)

/-- The `UPDATE sessions SET updated_at = CURRENT_TIMESTAMP WHERE id = ?`
statement of `add_message`, committed; `t` is its `CURRENT_TIMESTAMP`. -/
def touchSessionStmt (db : DBState) (sid : Nat) (t : Nat) : DBState :=
  { db with
      sessions := db.sessions.map
        (fun s => if s.id == sid then { s with updated_at := t } else s) }

/-- `SessionManager.get_session`: `SELECT * FROM sessions WHERE id = ?`. -/
def get_session (db : DBState) (sid : Nat) : Option SessionRow :=
  db.sessions.find? (fun s => s.id == sid)

/-- Stable insertion of a message row into a timestamp-sorted list. -/
def insertByTs (m : MessageRow) : List MessageRow → List MessageRow
  | [] => [m]
  | x :: xs => if x.timestamp ≤ m.timestamp then x :: insertByTs m xs else m :: x :: xs

/-- `ORDER BY timestamp ASC` over rows scanned in rowid order. -/
def sortByTs : List MessageRow → List MessageRow
  | [] => []
  | x :: xs => insertByTs x (sortByTs xs)

/-- `SessionManager.get_messages` (no limit):
`SELECT * FROM messages WHERE session_id = ? ORDER BY timestamp ASC`. -/
def get_messages (db : DBState) (sid : Nat) : List MessageRow :=
  sortByTs (db.messages.filter (fun m => m.session_id == sid))

/-- `SessionManager.delete_session`: executes only
`DELETE FROM sessions WHERE id = ?`.  With foreign-key enforcement off
(no `PRAGMA foreign_keys` is ever issued), the `ON DELETE CASCADE`
declaration has no effect and message rows are untouched. -/
def delete_session (db : DBState) (sid : Nat) : DBState :=
  { db with sessions := db.sessions.filter (fun s => !(s.id == sid)) }

/-- The two committed states produced by `SessionManager.add_message`:
the state after the message `INSERT` commits (`afterInsert`), and the
state after the `updated_at` `UPDATE` commits (`afterUpdate`), with the
new message's rowid.  `t1`, `t2` are the two statements'
`CURRENT_TIMESTAMP` values. -/
structure AddMessageRun where
  afterInsert : DBState
  afterUpdate : DBState
  messageId : Nat
deriving Repr, DecidableEq

/-- `SessionManager.add_message(session_id, role, content, metadata)`. -/
def add_message (db : DBState) (sid : Nat) (role content mdata : String)
    (t1 t2 : Nat) : AddMessageRun :=
  let r := insertMessageStmt db sid role content mdata t1
  ⟨r.1, touchSessionStmt r.1 sid t2, r.2⟩

/-- `SessionManager.export_session_json`: the session row, its ordered
messages, and the export time. -/
structure ExportData where
  session : SessionRow
  messages : List MessageRow
  exported_at : Nat
deriving Repr, DecidableEq

/-- `export_session_json(session_id)`; `t` is `datetime.now()`. -/
def export_session_json (db : DBState) (sid : Nat) (t : Nat) : Option ExportData :=
  match get_session db sid with
  | none => none
  | some s => some ⟨s, get_messages db sid, t⟩

/-- The reconstruction step of `PersistentGradioChat.load_session`:
rebuild the ordered (role, content) transcript from a message list. -/
def load_from_messages (msgs : List MessageRow) : List (String × String) :=
  msgs.map (fun m => (m.role, m.content))

lemma find?_touch (l : List SessionRow) (sid : Nat) (t : Nat) :
    (l.map (fun s => if s.id == sid then { s with updated_at := t } else s)).find?
        (fun s => s.id == sid) =
      (l.find? (fun s => s.id == sid)).map (fun s => { s with updated_at := t }) := by
  induction l with
  | nil => rfl
  | cons a l ih =>
      cases ha : (a.id == sid) with
      | true =>
          simp only [List.map_cons, List.find?, ha, if_pos]
          simp [List.find?, ha]
      | false =>
          rw [List.map_cons, if_neg (by simp [ha]), List.find?_cons_of_neg _ (by simp [ha]),
            List.find?_cons_of_neg _ (by simp [ha]), ih]

lemma get_session_touch (db : DBState) (sid : Nat) (t : Nat) :
    get_session (touchSessionStmt db sid t) sid =
      (get_session db sid).map (fun s => { s with updated_at := t }) := by
  simpa [get_session, touchSessionStmt] using find?_touch db.sessions sid t

/-- C1 counterexample: running `add_message` on a store holding session 1
(with `updated_at = 0`) at insert time 5 and update time 6 produces a
committed intermediate state in which the new message (timestamp 5) is
visible while the session's `updated_at` is still 0, and a final state
whose `updated_at` is 6, not the message's timestamp 5. -/
theorem add_message_atomicity_ce :
    ((add_message ⟨[⟨1, "T", 0, 0, "m"⟩], [], 2, 1⟩ 1 "user" "hi" "m" 5 6).afterInsert.messages.any
        (fun m => m.id == 1 && m.session_id == 1 && m.timestamp == 5)) = true ∧
      (get_session (add_message ⟨[⟨1, "T", 0, 0, "m"⟩], [], 2, 1⟩ 1 "user" "hi" "m" 5 6).afterInsert
          1).map SessionRow.updated_at = some 0 ∧
      (get_session (add_message ⟨[⟨1, "T", 0, 0, "m"⟩], [], 2, 1⟩ 1 "user" "hi" "m" 5 6).afterUpdate
          1).map SessionRow.updated_at = some 6 ∧
      (5 : Nat) ≠ 0 ∧ (6 : Nat) ≠ 5 := by
  refine ⟨by decide, by decide, by decide, by decide, by decide⟩

/-- C1 (amended): `add_message` appends the message and updates the owning
session's `updated_at` in two separately committed statements.  At the
commit point between them the new message is already visible while the
session row is unchanged (stale `updated_at`); after the call the
session's `updated_at` equals the update statement's time `t2`, which
equals the new message's timestamp `t1` only when both statements observe
the same clock value. -/
theorem add_message_commit_behaviour (db : DBState) (sid : Nat)
    (role content mdata : String) (t1 t2 : Nat) (s : SessionRow)
    (h : get_session db sid = some s) :
    (add_message db sid role content mdata t1 t2).afterInsert.messages =
        db.messages ++ [⟨db.next_message_id, sid, role, content, t1, mdata⟩] ∧
      get_session (add_message db sid role content mdata t1 t2).afterInsert sid = some s ∧
      get_session (add_message db sid role content mdata t1 t2).afterUpdate sid =
        some { s with updated_at := t2 } ∧
      (add_message db sid role content mdata t1 t2).afterUpdate.messages =
        db.messages ++ [⟨db.next_message_id, sid, role, content, t1, mdata⟩] ∧
      (t1 = t2 →
        (get_session (add_message db sid role content mdata t1 t2).afterUpdate sid).map
            SessionRow.updated_at = some t1) := by
  have hins : get_session (add_message db sid role content mdata t1 t2).afterInsert sid =
      get_session db sid := rfl
  have hupd : get_session (add_message db sid role content mdata t1 t2).afterUpdate sid =
      (get_session db sid).map (fun s => { s with updated_at := t2 }) :=
    get_session_touch _ sid t2
  refine ⟨rfl, hins.trans h, ?_, rfl, ?_⟩
  · rw [hupd, h]; rfl
  · intro ht
    rw [hupd, h, ht]
    rfl

/-- Witness for C1 (amended) at a concrete store and clock values. -/
theorem add_message_commit_behaviour_witness :
    get_session ⟨[⟨1, "T", 0, 0, "m"⟩], [], 2, 1⟩ 1 = some ⟨1, "T", 0, 0, "m"⟩ ∧
      ((add_message ⟨[⟨1, "T", 0, 0, "m"⟩], [], 2, 1⟩ 1 "user" "hi" "m" 5 6).afterInsert.messages =
          [] ++ [⟨1, 1, "user", "hi", 5, "m"⟩] ∧
        get_session (add_message ⟨[⟨1, "T", 0, 0, "m"⟩], [], 2, 1⟩ 1 "user" "hi" "m" 5
            6).afterInsert 1 = some ⟨1, "T", 0, 0, "m"⟩ ∧
        get_session (add_message ⟨[⟨1, "T", 0, 0, "m"⟩], [], 2, 1⟩ 1 "user" "hi" "m" 5
            6).afterUpdate 1 = some ⟨1, "T", 0, 6, "m"⟩ ∧
        (add_message ⟨[⟨1, "T", 0, 0, "m"⟩], [], 2, 1⟩ 1 "user" "hi" "m" 5 6).afterUpdate.messages =
          [] ++ [⟨1, 1, "user", "hi", 5, "m"⟩] ∧
        ((5 : Nat) = 6 →
          (get_session (add_message ⟨[⟨1, "T", 0, 0, "m"⟩], [], 2, 1⟩ 1 "user" "hi" "m" 5
              6).afterUpdate 1).map SessionRow.updated_at = some 5)) :=
  ⟨by decide,
    add_message_commit_behaviour ⟨[⟨1, "T", 0, 0, "m"⟩], [], 2, 1⟩ 1 "user" "hi" "m" 5 6
      ⟨1, "T", 0, 0, "m"⟩ (by decide)⟩

/-- C2: at the failing input — a store holding session 1 with one message —
`delete_session 1` removes the session row but leaves the message row in
place (Python's sqlite3 never enables `PRAGMA foreign_keys`, so the
schema's `ON DELETE CASCADE` is not enforced): `get_messages 1` still
returns the message, an orphan referencing the deleted session. -/
theorem delete_session_orphan_messages :
    get_session (delete_session ⟨[⟨1, "T", 0, 0, "m"⟩], [⟨1, 1, "user", "hi", 1, "m"⟩], 2, 2⟩ 1)
        1 = none ∧
      get_messages (delete_session ⟨[⟨1, "T", 0, 0, "m"⟩], [⟨1, 1, "user", "hi", 1, "m"⟩], 2, 2⟩ 1)
          1 = [⟨1, 1, "user", "hi", 1, "m"⟩] ∧
      (delete_session ⟨[⟨1, "T", 0, 0, "m"⟩], [⟨1, 1, "user", "hi", 1, "m"⟩], 2, 2⟩
          1).messages.any (fun m => m.session_id == 1) = true := by
  refine ⟨by decide, by decide, by decide⟩

/-- C8: whenever `export_session_json` succeeds, reconstructing the
transcript from the exported message array (as `load_session` does)
reproduces exactly the ordered roles and contents of the original
session's messages. -/
theorem export_session_roundtrip (db : DBState) (sid : Nat) (t : Nat) (ex : ExportData)
    (h : export_session_json db sid t = some ex) :
    load_from_messages ex.messages =
      (get_messages db sid).map (fun m => (m.role, m.content)) := by
  unfold export_session_json at h
  cases hs : get_session db sid with
  | none => rw [hs] at h; cases h
  | some s =>
      rw [hs] at h
      cases h
      rfl

/-- Witness for C8 at a concrete store. -/
theorem export_session_roundtrip_witness :
    export_session_json ⟨[⟨1, "T", 0, 0, "m"⟩], [⟨1, 1, "user", "hi", 1, "m"⟩], 2, 2⟩ 1 9 =
        some ⟨⟨1, "T", 0, 0, "m"⟩, [⟨1, 1, "user", "hi", 1, "m"⟩], 9⟩ ∧
      load_from_messages
          (⟨⟨1, "T", 0, 0, "m"⟩, [⟨1, 1, "user", "hi", 1, "m"⟩], 9⟩ : ExportData).messages =
        (get_messages ⟨[⟨1, "T", 0, 0, "m"⟩], [⟨1, 1, "user", "hi", 1, "m"⟩], 2, 2⟩ 1).map
          (fun m => (m.role, m.content)) :=
  ⟨by decide,
    export_session_roundtrip ⟨[⟨1, "T", 0, 0, "m"⟩], [⟨1, 1, "user", "hi", 1, "m"⟩], 2, 2⟩ 1 9
      ⟨⟨1, "T", 0, 0, "m"⟩, [⟨1, 1, "user", "hi", 1, "m"⟩], 9⟩ (by decide)⟩

/-!
## Controllers

Desktop GUI (`src/ui/chat_window.py` + `src/ui/components.py`): the
`on_complete` closure of `_generate_response` either appends the assistant
turn or calls `mark_interrupted`; `InputArea._handle_send` strips the
input box text and only invokes `on_send` when the stripped text is
non-empty; `ChatbotGUI._handle_send` additionally rejects a falsy message.

Persistent web controller (`app_gradio_persistent.py`,
`PersistentGradioChat.generate_response` with `save_to_db = True` and an
active session): rejects input when the model is not loaded or the
stripped message is empty; otherwise appends the user turn to the
conversation and the store, streams tokens while `is_generating` holds,
and then — with no cancellation check — appends `full_response` to the
conversation and the store.  `stopAfter` models `stop_generation`
clearing `is_generating` after that many chunks were accumulated.
-/

/-- The `on_complete` closure of `ChatbotGUI._generate_response`. -/
def gui_on_complete (cm : ConversationManager) (response : String)
    (was_stopped : Bool) : ConversationManager :=
  if was_stopped = false then cm.add_assistant_message response
  else cm.mark_interrupted response

/-- `InputArea._handle_send`: strip the raw box text; invoke `on_send`
with the stripped message only when it is non-empty. -/
def input_area_handle_send (raw : String) : Option String :=
  let message : String := ⟨pyStrip raw.data⟩
  if message = "" then none else some message

/-- `ChatbotGUI._handle_send`: reject a falsy (empty) message, otherwise
append the user turn and start generation (the returned flag). -/
def gui_handle_send (cm : ConversationManager) (message : String) :
    ConversationManager × Bool :=
  if message = "" then (cm, false)
  else (cm.add_user_message message, true)

/-- The GUI submit pipeline: `InputArea._handle_send` feeding
`ChatbotGUI._handle_send`. -/
def gui_submit (cm : ConversationManager) (raw : String) : ConversationManager × Bool :=
  match input_area_handle_send raw with
  | none => (cm, false)
  | some m => gui_handle_send cm m

/-- The streaming loop of `PersistentGradioChat.generate_response`:
accumulate chunks into `full_response` while `is_generating` holds
(`flagSet` true models the flag having been cleared by `stop_generation`
after `d` chunks). -/
def gradioLoop (stopAfter : Option Nat) : List String → Nat → String → String
  | [], _, acc => acc
  | t :: rest, d, acc =>
      if flagSet stopAfter d then acc else gradioLoop stopAfter rest (d + 1) (acc ++ t)

/-- JSON encoding of the default message metadata (`json.dumps({})`). -/
def emptyMetadataJson : String := "\x7b\x7d"

/-- Result of one `PersistentGradioChat.generate_response` call:
conversation state, store state, and whether generation ran. -/
structure GradioTurn where
  cm : ConversationManager
  db : DBState
  started : Bool
deriving Repr, DecidableEq

/-- `PersistentGradioChat.generate_response(message, ...)` with
`save_to_db = True` and an active session `sid`; `t1`–`t4` are the
`CURRENT_TIMESTAMP` values of the four statements run by the two
`add_message` calls. -/
def gradio_generate_response (loaded : Bool) (message : String)
    (cm : ConversationManager) (db : DBState) (sid : Nat) (tokens : List String)
    (stopAfter : Option Nat) (t1 t2 t3 t4 : Nat) : GradioTurn :=
  if loaded = false then ⟨cm, db, false⟩
  else if (⟨pyStrip message.data⟩ : String) = "" then ⟨cm, db, false⟩
  else
    let cm1 := cm.add_user_message message
    let db1 := (add_message db sid "user" message emptyMetadataJson t1 t2).afterUpdate
    let full := gradioLoop stopAfter tokens 0 ""
    let cm2 := cm1.add_assistant_message full
    let db2 := (add_message db1 sid "assistant" full emptyMetadataJson t3 t4).afterUpdate
    ⟨cm2, db2, true⟩

/-- C6 counterexample: starting from a fresh log and a store holding only
session 1, a Gradio turn for "Tell" whose generation is cancelled after the
single increment `"Once "` ends with the partial output appended to the
log as an assistant message, the interrupted flag still false (no
`mark_interrupted` call), and an assistant row with the partial content
persisted to the store — contradicting the claim that a cancelled turn
calls `markInterrupted` and persists no assistant message. -/
theorem gradio_cancelled_turn_ce :
    (gradio_generate_response true "Tell" ConversationManager.init
        ⟨[⟨1, "T", 0, 0, "m"⟩], [], 2, 1⟩ 1 ["Once ", "upon"] (some 1) 5 5 6 6).cm.messages =
      [⟨"user", "Tell"⟩, ⟨"assistant", "Once "⟩] ∧
    (gradio_generate_response true "Tell" ConversationManager.init
        ⟨[⟨1, "T", 0, 0, "m"⟩], [], 2, 1⟩ 1 ["Once ", "upon"] (some 1) 5 5 6 6).cm.is_interrupted =
      false ∧
    (gradio_generate_response true "Tell" ConversationManager.init
        ⟨[⟨1, "T", 0, 0, "m"⟩], [], 2, 1⟩ 1 ["Once ", "upon"] (some 1) 5 5 6
        6).db.messages.any
      (fun m => m.session_id == 1 && m.role == "assistant" && m.content == "Once ") = true := by
  refine ⟨by decide, by decide, by decide⟩

/-- C6 (amended): a cancelled turn is handled differently by the two
controllers.  The desktop GUI controller's completion callback calls
`mark_interrupted` with the partial output — leaving the message sequence
unchanged, setting the flag and the buffer — and appends the assistant
message only on an uncancelled completion.  The persistent Gradio
controller instead appends the accumulated partial output as an assistant
message to both the in-memory log and the session store even when the
turn was cancelled, and never calls `mark_interrupted` (the interrupted
flag is untouched). -/
theorem controller_cancelled_turn_behaviour (cm : ConversationManager)
    (partialText : String) (db : DBState) (sid : Nat) (message : String)
    (tokens : List String) (N : Nat) (t1 t2 t3 t4 : Nat)
    (hmsg : (⟨pyStrip message.data⟩ : String) ≠ "") :
    (gui_on_complete cm partialText true).messages = cm.messages ∧
    (gui_on_complete cm partialText true).is_interrupted = true ∧
    (gui_on_complete cm partialText true).partial_response = partialText ∧
    (gui_on_complete cm partialText false).messages =
      cm.messages ++ [⟨"assistant", partialText⟩] ∧
    (gradio_generate_response true message cm db sid tokens (some N) t1 t2 t3 t4).cm.messages =
      cm.messages ++ [⟨"user", message⟩,
        ⟨"assistant", gradioLoop (some N) tokens 0 ""⟩] ∧
    (gradio_generate_response true message cm db sid tokens (some N) t1 t2 t3
        t4).cm.is_interrupted = cm.is_interrupted ∧
    (gradio_generate_response true message cm db sid tokens (some N) t1 t2 t3 t4).db.messages =
      db.messages ++ [⟨db.next_message_id, sid, "user", message, t1, emptyMetadataJson⟩,
        ⟨db.next_message_id + 1, sid, "assistant", gradioLoop (some N) tokens 0 "", t3,
          emptyMetadataJson⟩] := by
  refine ⟨rfl, rfl, rfl, rfl, ?_, ?_, ?_⟩ <;>
    simp [gradio_generate_response, if_neg hmsg, ConversationManager.add_user_message,
      ConversationManager.add_assistant_message, add_message, insertMessageStmt,
      touchSessionStmt]

/-- Witness for C6 (amended) at a concrete cancelled turn. -/
theorem controller_cancelled_turn_behaviour_witness :
    (⟨pyStrip ("Tell" : String).data⟩ : String) ≠ "" ∧
      ((gui_on_complete ConversationManager.init "Once " true).messages = [] ∧
        (gui_on_complete ConversationManager.init "Once " true).is_interrupted = true ∧
        (gui_on_complete ConversationManager.init "Once " true).partial_response = "Once " ∧
        (gui_on_complete ConversationManager.init "Once " false).messages =
          [] ++ [⟨"assistant", "Once "⟩] ∧
        (gradio_generate_response true "Tell" ConversationManager.init
            ⟨[⟨1, "T", 0, 0, "m"⟩], [], 2, 1⟩ 1 ["Once ", "upon"] (some 1) 5 5 6 6).cm.messages =
          [] ++ [⟨"user", "Tell"⟩, ⟨"assistant", gradioLoop (some 1) ["Once ", "upon"] 0 ""⟩] ∧
        (gradio_generate_response true "Tell" ConversationManager.init
            ⟨[⟨1, "T", 0, 0, "m"⟩], [], 2, 1⟩ 1 ["Once ", "upon"] (some 1) 5 5 6
            6).cm.is_interrupted = ConversationManager.init.is_interrupted ∧
        (gradio_generate_response true "Tell" ConversationManager.init
            ⟨[⟨1, "T", 0, 0, "m"⟩], [], 2, 1⟩ 1 ["Once ", "upon"] (some 1) 5 5 6 6).db.messages =
          [] ++ [⟨1, 1, "user", "Tell", 5, emptyMetadataJson⟩,
            ⟨1 + 1, 1, "assistant", gradioLoop (some 1) ["Once ", "upon"] 0 "", 6,
              emptyMetadataJson⟩]) :=
  ⟨by decide,
    controller_cancelled_turn_behaviour ConversationManager.init "Once "
      ⟨[⟨1, "T", 0, 0, "m"⟩], [], 2, 1⟩ 1 "Tell" ["Once ", "upon"] 1 5 5 6 6 (by decide)⟩

/-- C7: a submitted input whose stripped form is empty is rejected
synchronously as a no-op on every path: the persistent Gradio controller
returns with conversation and store untouched and no generation started
(whether or not the model is loaded), and the desktop input pipeline never
invokes `on_send`, so the log is unchanged and no generation starts. -/
theorem empty_input_rejected (raw : String)
    (h : (⟨pyStrip raw.data⟩ : String) = "") :
    (∀ loaded cm db sid tokens stopAfter t1 t2 t3 t4,
      gradio_generate_response loaded raw cm db sid tokens stopAfter t1 t2 t3 t4 =
        ⟨cm, db, false⟩) ∧
    input_area_handle_send raw = none ∧
    (∀ cm, gui_submit cm raw = (cm, false)) := by
  refine ⟨?_, ?_, ?_⟩
  · intro loaded cm db sid tokens stopAfter t1 t2 t3 t4
    cases loaded with
    | false => rfl
    | true => simp [gradio_generate_response, h]
  · simp [input_area_handle_send, h]
  · intro cm
    simp [gui_submit, input_area_handle_send, h]

/-- Witness for C7 at a concrete whitespace-only input. -/
theorem empty_input_rejected_witness :
    (⟨pyStrip ("  " : String).data⟩ : String) = "" ∧
      gradio_generate_response true "  " ConversationManager.init ⟨[], [], 1, 1⟩ 1 ["tok"]
          none 0 0 0 0 = ⟨ConversationManager.init, ⟨[], [], 1, 1⟩, false⟩ ∧
      input_area_handle_send "  " = none ∧
      gui_submit ConversationManager.init "  " = (ConversationManager.init, false) :=
  ⟨by decide,
    (empty_input_rejected "  " (by decide)).1 true ConversationManager.init ⟨[], [], 1, 1⟩ 1
      ["tok"] none 0 0 0 0,
    (empty_input_rejected "  " (by decide)).2.1,
    (empty_input_rejected "  " (by decide)).2.2 ConversationManager.init⟩
